import Mathlib

/-!
# mem-dump-analyser: a shallow embedding of `main.go`

The Go program is a single file. Its effectful functions are embedded as pure
functions over an explicit description of what the outside world answers
(`Runtime`), returning the Go result together with the list of calls performed.
The goroutines of `main` are embedded as a labelled step function on a state
holding each goroutine's program counter.
-/

namespace MemDump

/-! ## `DumpProfile` (main.go, lines 135-182) -/

/-- The constant `time.Second`, in nanoseconds (the unit of `time.Duration`). -/
def Second : Nat := 1000000000

/-- Calls that `DumpProfile` makes on the file and on the Go runtime, in the
order of the source. A call is recorded whether or not it succeeds. -/
inductive Action where
  /-- Call `os.Create(filename)`: create or truncate. -/
  | create (filename : String)
  /-- Call `runtime.GC()`. -/
  | gc
  /-- Call `pprof.WriteHeapProfile(f)`. -/
  | writeHeapProfile
  /-- Call `pprof.Lookup(name)`. -/
  | lookup (name : String)
  /-- Call `p.WriteTo(f, 0)` on the profile that `pprof.Lookup(name)` returned. -/
  | writeTo (name : String)
  /-- Call `pprof.StartCPUProfile(f)`. -/
  | startCPUProfile
  /-- Call `time.Sleep(d)`, `d` in nanoseconds. -/
  | sleep (d : Nat)
  /-- Call `pprof.StopCPUProfile()`. -/
  | stopCPUProfile
  /-- The deferred `f.Close()`. -/
  | close
  deriving DecidableEq

/-- The non-nil errors `DumpProfile` builds with `fmt.Errorf`, one constructor
per format string of the source. -/
inductive DumpError where
  /-- Line 138: `"could not create profile: %v"`. -/
  | couldNotCreate (err : String)
  /-- Line 146: `"could not write heap profile: %v"`. -/
  | couldNotWriteHeap (err : String)
  /-- Lines 151, 165, 173: `"could not find <name> profile"`. -/
  | couldNotFind (name : String)
  /-- Lines 154, 168, 176: `"could not write <name> profile: %v"`. -/
  | couldNotWrite (name : String) (err : String)
  /-- Line 158: `"could not start CPU profile: %v"`. -/
  | couldNotStartCPU (err : String)
  /-- Line 179: `"unknown profile type: %v"`. -/
  | unknownProfileType (profile : String)
  deriving DecidableEq

/-- The text of the error, as `fmt.Errorf` formats it. -/
def DumpError.Error : DumpError → String
  | .couldNotCreate err => "could not create profile: " ++ err
  | .couldNotWriteHeap err => "could not write heap profile: " ++ err
  | .couldNotFind name => "could not find " ++ name ++ " profile"
  | .couldNotWrite name err => "could not write " ++ name ++ " profile: " ++ err
  | .couldNotStartCPU err => "could not start CPU profile: " ++ err
  | .unknownProfileType profile => "unknown profile type: " ++ profile

/-- What the operating system and the Go runtime answer to the calls of one
`DumpProfile` run. An `Option String` is a Go `error`: `none` is `nil`. -/
structure Runtime where
  /-- The error of `os.Create(filename)`. -/
  create : String → Option String
  /-- The error of `pprof.WriteHeapProfile(f)`. -/
  writeHeapProfile : Option String
  /-- Whether `pprof.Lookup(name)` returns a non-nil profile. -/
  lookup : String → Bool
  /-- The error of `p.WriteTo(f, 0)` for the profile registered as `name`. -/
  writeTo : String → Option String
  /-- The error of `pprof.StartCPUProfile(f)`. -/
  startCPUProfile : Option String
  /-- The error met by the profile writer that `StartCPUProfile` attaches to
  `f`, when the samples cannot be written to the file. `StopCPUProfile()` waits
  for that writer and has no result, so the source has no way to read this. -/
  cpuProfileWrite : Option String

/-- The body repeated in the `goroutine`, `threadcreate` and `block` cases
(lines 149-155, 163-169, 171-177) for the literal `name` of the case. -/
def writeNamedProfile (rt : Runtime) (name : String) : Option DumpError × List Action :=
  if rt.lookup name then
    match rt.writeTo name with
    | some err => (some (.couldNotWrite name err), [.lookup name, .writeTo name])
    | none => (none, [.lookup name, .writeTo name])
  else
    (some (.couldNotFind name), [.lookup name])

/-- The `switch profile` statement (lines 142-181): the value returned and the
calls made between `os.Create` and the deferred `f.Close()`. -/
def dispatch (rt : Runtime) (profile : String) : Option DumpError × List Action :=
  if profile = "heap" then
    match rt.writeHeapProfile with
    | some err => (some (.couldNotWriteHeap err), [.gc, .writeHeapProfile])
    | none => (none, [.gc, .writeHeapProfile])
  else if profile = "goroutine" then
    writeNamedProfile rt "goroutine"
  else if profile = "cpu" then
    match rt.startCPUProfile with
    | some err => (some (.couldNotStartCPU err), [.startCPUProfile])
    | none => (none, [.startCPUProfile, .sleep (Second * 10), .stopCPUProfile])
  else if profile = "threadcreate" then
    writeNamedProfile rt "threadcreate"
  else if profile = "block" then
    writeNamedProfile rt "block"
  else
    (some (.unknownProfileType profile), [])

/-- Go `DumpProfile(profile, filename)`: the returned `error` (`none` is `nil`)
and the calls performed, in order. `defer f.Close()` runs after the `switch`
on every return that follows a successful `os.Create`. -/
def DumpProfile (rt : Runtime) (profile filename : String) : Option DumpError × List Action :=
  match rt.create filename with
  | some err => (some (.couldNotCreate err), [.create filename])
  | none => ((dispatch rt profile).1, .create filename :: ((dispatch rt profile).2 ++ [.close]))

/-- A runtime in which every call succeeds and every named profile exists. -/
def Runtime.healthy : Runtime where
  create := fun _ => none
  writeHeapProfile := none
  lookup := fun _ => true
  writeTo := fun _ => none
  startCPUProfile := none
  cpuProfileWrite := none

/-! ## Configuration (main.go, lines 65-98) -/

/-- The values the `viper` getters serve for the keys the program reads.
`GetDuration` is in nanoseconds and is `0` for an absent or unparsable key;
`GetString` is `""` for an absent key. -/
structure Viper where
  interval : Int
  duration : Int
  profile : String
  profileFile : String
  logFile : String
  username : String
  password : String
  deriving DecidableEq

/-- Go `validateConfig()`: `some msg` when a check calls `log.Fatal(msg)`, which
ends the process; `none` when the function returns and startup goes on. The
checks run in the order of the source. -/
def validateConfig (v : Viper) : Option String :=
  if v.interval ≤ 0 then some "Invalid interval value"
  else if v.duration ≤ 0 then some "Invalid duration value"
  else if v.profile = "" then some "Profile type not specified"
  else if v.profileFile = "" then some "Profile file not specified"
  else if v.logFile = "" then some "Log file not specified"
  else if v.username = "" ∨ v.password = "" then some "Username or password not specified"
  else none

/-! ## Memory statistics (main.go, lines 22-51 and 100-133) -/

/-- The fields of Go's `runtime.MemStats` that the program reads. The `uint32`
and `uint64` counters are naturals; the `float64` field `GCCPUFraction` is
carried as its bit pattern, nothing here computes with it. -/
structure MemStats where
  Alloc : Nat
  TotalAlloc : Nat
  Sys : Nat
  Lookups : Nat
  Mallocs : Nat
  Frees : Nat
  HeapAlloc : Nat
  HeapSys : Nat
  HeapIdle : Nat
  HeapInuse : Nat
  HeapReleased : Nat
  HeapObjects : Nat
  StackInuse : Nat
  StackSys : Nat
  MSpanInuse : Nat
  MSpanSys : Nat
  MCacheInuse : Nat
  MCacheSys : Nat
  BuckHashSys : Nat
  GCSys : Nat
  OtherSys : Nat
  NextGC : Nat
  LastGC : Nat
  PauseTotalNs : Nat
  NumGC : Nat
  NumForcedGC : Nat
  GCCPUFraction : Nat
  deriving DecidableEq

/-- The struct `MemoryStats` of the source. -/
structure MemoryStats where
  Alloc : Nat
  TotalAlloc : Nat
  Sys : Nat
  Lookups : Nat
  Mallocs : Nat
  Frees : Nat
  HeapAlloc : Nat
  HeapSys : Nat
  HeapIdle : Nat
  HeapInuse : Nat
  HeapReleased : Nat
  HeapObjects : Nat
  StackInuse : Nat
  StackSys : Nat
  MSpanInuse : Nat
  MSpanSys : Nat
  MCacheInuse : Nat
  MCacheSys : Nat
  BuckHashSys : Nat
  GCSys : Nat
  OtherSys : Nat
  NextGC : Nat
  LastGC : Nat
  PauseTotalNs : Nat
  NumGC : Nat
  NumForcedGC : Nat
  GCCPUFraction : Nat
  deriving DecidableEq

/-- Go `CaptureMemoryStats()`, given what `runtime.ReadMemStats` fills in. -/
def CaptureMemoryStats (memStats : MemStats) : MemoryStats where
  Alloc := memStats.Alloc
  TotalAlloc := memStats.TotalAlloc
  Sys := memStats.Sys
  Lookups := memStats.Lookups
  Mallocs := memStats.Mallocs
  Frees := memStats.Frees
  HeapAlloc := memStats.HeapAlloc
  HeapSys := memStats.HeapSys
  HeapIdle := memStats.HeapIdle
  HeapInuse := memStats.HeapInuse
  HeapReleased := memStats.HeapReleased
  HeapObjects := memStats.HeapObjects
  StackInuse := memStats.StackInuse
  StackSys := memStats.StackSys
  MSpanInuse := memStats.MSpanInuse
  MSpanSys := memStats.MSpanSys
  MCacheInuse := memStats.MCacheInuse
  MCacheSys := memStats.MCacheSys
  BuckHashSys := memStats.BuckHashSys
  GCSys := memStats.GCSys
  OtherSys := memStats.OtherSys
  NextGC := memStats.NextGC
  LastGC := memStats.LastGC
  PauseTotalNs := memStats.PauseTotalNs
  NumGC := memStats.NumGC
  NumForcedGC := memStats.NumForcedGC
  GCCPUFraction := memStats.GCCPUFraction

/-! ## HTTP Basic authentication (main.go, lines 208-218) -/

/-- What a handler reads of a `*http.Request`: the three results of
`r.BasicAuth()`. When `ok` is false no Basic credentials were presented and
`user` and `pass` are empty. -/
structure Request where
  user : String
  pass : String
  ok : Bool
  deriving DecidableEq

/-- A `http.ResponseWriter`: the header map being built, whether the status
line went out, the status and the headers that went out with it, and the body
written so far. -/
structure ResponseWriter where
  header : List (String × String)
  wroteHeader : Bool
  status : Nat
  sentHeader : List (String × String)
  body : String
  deriving DecidableEq

/-- The writer that the HTTP server hands to a registered handler. -/
def ResponseWriter.fresh : ResponseWriter where
  header := []
  wroteHeader := false
  status := 0
  sentHeader := []
  body := ""

/-- Go `w.Header().Set(key, value)`: the entry for `key` is replaced. -/
def ResponseWriter.Set (w : ResponseWriter) (key value : String) : ResponseWriter :=
  { w with header := w.header.filter (fun kv => kv.1 ≠ key) ++ [(key, value)] }

/-- Go `w.WriteHeader(code)`: the first call sends the status with the headers
set so far; a later call changes nothing. -/
def ResponseWriter.WriteHeader (w : ResponseWriter) (code : Nat) : ResponseWriter :=
  if w.wroteHeader then w
  else { w with wroteHeader := true, status := code, sentHeader := w.header }

/-- Go `w.Write`: sends status 200 first when no status went out yet. -/
def ResponseWriter.Write (w : ResponseWriter) (data : String) : ResponseWriter :=
  { w.WriteHeader 200 with body := (w.WriteHeader 200).body ++ data }

/-- The status code `http.StatusUnauthorized`. -/
def StatusUnauthorized : Nat := 401

/-- Go `http.Error(w, error, code)`: plain-text content type, the status, then
the message and a newline. -/
def httpError (w : ResponseWriter) (error : String) (code : Nat) : ResponseWriter :=
  (((w.Set "Content-Type" "text/plain; charset=utf-8").Set
    "X-Content-Type-Options" "nosniff").WriteHeader code).Write (error ++ "\n")

/-- A `http.HandlerFunc`, passing the response writer explicitly. -/
abbrev HandlerFunc := Request → ResponseWriter → ResponseWriter

/-- Go `basicAuth(next)`. The configured user name and password are read from
`viper` at each request (`v` is what `viper` serves at that time). -/
def basicAuth (v : Viper) (next : HandlerFunc) : HandlerFunc :=
  fun r w =>
    if !r.ok ∨ r.user ≠ v.username ∨ r.pass ≠ v.password then
      httpError (w.Set "WWW-Authenticate" "Basic realm=\x22restricted\x22")
        "Unauthorized" StatusUnauthorized
    else
      next r w

/-! ## The goroutines of `main` (main.go, lines 220-280) -/

/-- Where the scheduled dump goroutine (lines 255-269) stands. -/
inductive LoopPc where
  /-- Blocked in `select` (line 257), between two ticks. -/
  | select
  /-- A tick was received; `CaptureMemoryStats()` (line 261) is next. -/
  | capture
  /-- The snapshot is taken; `log.Printf("Memory Stats: ...")` (line 262) is next. -/
  | logStats (memStats : MemoryStats)
  /-- The call `DumpProfile(profile, profileFile)` (line 264) is next. -/
  | dump
  /-- The dump returned `err`; `log.Printf("Error dumping ...")` (line 265) is next. -/
  | logError (err : DumpError)
  /-- The goroutine returned (line 259). -/
  | returned
  deriving DecidableEq

/-- Where the shutdown goroutine (lines 271-276) stands. -/
inductive CoordPc where
  /-- Blocked in `<-sigs` (line 272). -/
  | waitSignal
  /-- The signal was received; `log.Println` (line 273) is next. -/
  | logShutdown
  /-- The call `ticker.Stop()` (line 274) is next. -/
  | stopTicker
  /-- Blocked in `done <- true` (line 275) until the loop receives. -/
  | sendDone
  /-- The goroutine ended (line 276). -/
  | finished
  deriving DecidableEq

/-- What the goroutines do that can be seen from outside, in the order it
happens. -/
inductive Event where
  /-- Line 261: `CaptureMemoryStats()` returned `memStats`. -/
  | capture (memStats : MemoryStats)
  /-- Line 262: the snapshot was logged. -/
  | logStats (memStats : MemoryStats)
  /-- Line 264: `DumpProfile(profile, filename)` ran, returned `err` and made
  the calls `actions`. -/
  | dump (profile filename : String) (err : Option DumpError) (actions : List Action)
  /-- Line 265: the error of the dump was logged. -/
  | logError (profile : String) (err : DumpError)
  /-- Line 273: `"Received shutdown signal"` was logged. -/
  | logShutdown
  /-- Line 274: `ticker.Stop()`. -/
  | tickerStop
  /-- Line 275 with line 258: the value sent on `done` was received. -/
  | done
  /-- Line 75: a change of the configuration file was logged. -/
  | logConfigChange
  deriving DecidableEq

/-- Whether an event belongs to the body of a tick (lines 261-266). -/
def Event.inTickBody : Event → Bool
  | .capture _ => true
  | .logStats _ => true
  | .dump _ _ _ _ => true
  | .logError _ _ => true
  | _ => false

/-- Whether an event is a statement of the shutdown goroutine. -/
def Event.ofCoordinator : Event → Bool
  | .logShutdown => true
  | .tickerStop => true
  | .done => true
  | _ => false

/-- The state shared by the ticker, the shutdown goroutine and the scheduled
dump goroutine once `main` has started them. -/
structure State where
  /-- What `viper` serves now; the watcher of line 73 may replace it. -/
  viper : Viper
  /-- The local `interval` of `main` (line 224). -/
  interval : Int
  /-- The local `profile` of `main` (line 225). -/
  profile : String
  /-- The local `profileFile` of `main` (line 226). -/
  profileFile : String
  /-- What `runtime.ReadMemStats` would report now. -/
  mem : MemStats
  /-- Whether `ticker.Stop()` was called. -/
  tickerStopped : Bool
  /-- Whether a tick waits in the channel `ticker.C` (capacity 1). -/
  tickerC : Bool
  /-- Whether a signal waits in the channel `sigs` (capacity 1). -/
  sigs : Bool
  loop : LoopPc
  coordinator : CoordPc
  trace : List Event

/-- One atomic step of one component. -/
inductive Label where
  /-- The period of the ticker elapses. -/
  | timerFires
  /-- The operating system delivers SIGINT or SIGTERM. -/
  | signalArrives
  /-- The configuration file changes and `viper` reloads it as `v`. -/
  | configChanges (v : Viper)
  /-- The rest of the process allocates or frees memory. -/
  | memChanges (m : MemStats)
  /-- The shutdown goroutine runs its next statement. -/
  | coordinator
  /-- The `select` of the loop takes the case `<-ticker.C`. -/
  | selectTick
  /-- The `select` of the loop takes the case `<-done`, which completes the
  send of the shutdown goroutine (the channel is unbuffered). -/
  | selectDone
  /-- The loop runs the next statement of the tick body; `rt` is what the
  world answers if that statement is the dump. -/
  | loopBody (rt : Runtime)

/-- The state reached by a step, `none` when the step cannot be taken. -/
def step (l : Label) (s : State) : Option State :=
  match l with
  | .timerFires =>
    -- a stopped ticker does not fire; a tick finding the channel full is dropped
    if s.tickerStopped then none else some { s with tickerC := true }
  | .signalArrives => some { s with sigs := true }
  | .configChanges v => some { s with viper := v, trace := s.trace ++ [.logConfigChange] }
  | .memChanges m => some { s with mem := m }
  | .coordinator =>
    match s.coordinator with
    | .waitSignal =>
      if s.sigs then some { s with sigs := false, coordinator := .logShutdown } else none
    | .logShutdown =>
      some { s with coordinator := .stopTicker, trace := s.trace ++ [.logShutdown] }
    | .stopTicker =>
      some { s with coordinator := .sendDone, tickerStopped := true,
                    trace := s.trace ++ [.tickerStop] }
    | .sendDone => none
    | .finished => none
  | .selectTick =>
    if s.loop = .select ∧ s.tickerC = true then
      some { s with tickerC := false, loop := .capture }
    else none
  | .selectDone =>
    if s.loop = .select ∧ s.coordinator = .sendDone then
      some { s with loop := .returned, coordinator := .finished, trace := s.trace ++ [.done] }
    else none
  | .loopBody rt =>
    match s.loop with
    | .capture =>
      some { s with loop := .logStats (CaptureMemoryStats s.mem),
                    trace := s.trace ++ [.capture (CaptureMemoryStats s.mem)] }
    | .logStats memStats =>
      some { s with loop := .dump, trace := s.trace ++ [.logStats memStats] }
    | .dump =>
      some { s with
        loop := (match (DumpProfile rt s.profile s.profileFile).1 with
                 | some err => .logError err
                 | none => .select),
        trace := s.trace ++ [.dump s.profile s.profileFile
                  (DumpProfile rt s.profile s.profileFile).1
                  (DumpProfile rt s.profile s.profileFile).2] }
    | .logError err =>
      some { s with loop := .select, trace := s.trace ++ [.logError s.profile err] }
    | .select => none
    | .returned => none

/-- The state reached by a sequence of steps, `none` when one of them cannot
be taken. -/
def exec : List Label → State → Option State
  | [], s => some s
  | l :: ls, s => (step l s).bind (exec ls)

/-- The state in which `main` leaves the goroutines (line 279), when the
getters of `viper` served `v` at lines 224-227. -/
def initState (v : Viper) (mem : MemStats) : State where
  viper := v
  interval := v.interval
  profile := v.profile
  profileFile := v.profileFile
  mem := mem
  tickerStopped := false
  tickerC := false
  sigs := false
  loop := .select
  coordinator := .waitSignal
  trace := []

/-- Go `main()` up to the start of the goroutines: the message of the
`log.Fatal` that ends the process, or the state the goroutines start in.
`readInConfig` is the error of `viper.ReadInConfig()`, `openFile` the error of
`os.OpenFile(logFile, ...)`. -/
def main (readInConfig : Option String) (v : Viper) (openFile : Option String)
    (mem : MemStats) : Except String State :=
  match readInConfig with
  | some err => .error ("Error reading config file: " ++ err)
  | none =>
    match validateConfig v with
    | some msg => .error msg
    | none =>
      match openFile with
      | some err => .error ("could not open log file: " ++ err)
      | none => .ok (initState v mem)

/-- A tick body as the loop writes it to the trace: the snapshot, its log
line, the dump of `(profile, filename)` and, when the dump failed, the log line
of its error. -/
def tickBody (memStats : MemoryStats) (profile filename : String)
    (err : Option DumpError) (actions : List Action) : List Event :=
  [.capture memStats, .logStats memStats, .dump profile filename err actions] ++
    (match err with
     | some e => [.logError profile e]
     | none => [])

/-! ## Sample inputs -/

/-- A configuration that passes every check of `validateConfig`. -/
def Viper.sample : Viper where
  interval := 1000000000
  duration := 1000000000
  profile := "goroutine"
  profileFile := "profile.out"
  logFile := "app.log"
  username := "admin"
  password := "secret"

/-- The sample configuration with a profile that is none of the five kinds. -/
def Viper.bogus : Viper :=
  { Viper.sample with profile := "bogus" }

/-- The sample configuration with an empty password. -/
def Viper.noPassword : Viper :=
  { Viper.sample with password := "" }

/-- Memory statistics with every counter at zero. -/
def MemStats.zero : MemStats where
  Alloc := 0
  TotalAlloc := 0
  Sys := 0
  Lookups := 0
  Mallocs := 0
  Frees := 0
  HeapAlloc := 0
  HeapSys := 0
  HeapIdle := 0
  HeapInuse := 0
  HeapReleased := 0
  HeapObjects := 0
  StackInuse := 0
  StackSys := 0
  MSpanInuse := 0
  MSpanSys := 0
  MCacheInuse := 0
  MCacheSys := 0
  BuckHashSys := 0
  GCSys := 0
  OtherSys := 0
  NextGC := 0
  LastGC := 0
  PauseTotalNs := 0
  NumGC := 0
  NumForcedGC := 0
  GCCPUFraction := 0

/-- A runtime in which `os.Create` fails. -/
def Runtime.noCreate : Runtime :=
  { Runtime.healthy with create := fun _ => some "permission denied" }

/-- A runtime in which the file is created but nothing can be written to it:
every write of a profile meets "no space left on device". -/
def Runtime.diskFull : Runtime :=
  { Runtime.healthy with
    writeHeapProfile := some "no space left on device"
    writeTo := fun _ => some "no space left on device"
    cpuProfileWrite := some "no space left on device" }

/-- A runtime in which no named profile is registered. -/
def Runtime.noProfiles : Runtime :=
  { Runtime.healthy with lookup := fun _ => false }

/-- A runtime in which CPU profiling is already in use. -/
def Runtime.cpuBusy : Runtime :=
  { Runtime.healthy with startCPUProfile := some "cpu profiling already in use" }

/-- A request without Basic credentials. -/
def Request.anonymous : Request where
  user := ""
  pass := ""
  ok := false

/-- A request with the credentials of the sample configuration. -/
def Request.admin : Request where
  user := "admin"
  pass := "secret"
  ok := true

/-- A handler that answers 200 with the body "ok". -/
def okHandler : HandlerFunc :=
  fun _ w => w.Write "ok"

/-- The events of a trace that belong to tick bodies. -/
def loopEvents (trace : List Event) : List Event :=
  trace.filter Event.inTickBody

/-- The events of a trace that are statements of the shutdown goroutine. -/
def coordinatorEvents (trace : List Event) : List Event :=
  trace.filter Event.ofCoordinator

/-- The statements the shutdown goroutine has run when it stands at a given
point of lines 272-276. -/
def CoordPc.statementsRun : CoordPc → List Event
  | .waitSignal => []
  | .logShutdown => []
  | .stopTicker => [.logShutdown]
  | .sendDone => [.logShutdown, .tickerStop]
  | .finished => [.logShutdown, .tickerStop, .done]

/-- A list of events is one whole tick body for `(profile, filename)`: for
some snapshot and some answers of the world, the snapshot, its log line, the
dump with what `DumpProfile` returns on those answers, and the log line of the
error when there is one. -/
def IsTick (profile filename : String) (t : List Event) : Prop :=
  ∃ (memStats : MemoryStats) (rt : Runtime),
    t = tickBody memStats profile filename
      (DumpProfile rt profile filename).1 (DumpProfile rt profile filename).2

/-- The events of the tick body under way when the loop stands at a given
point of lines 257-266. -/
def Pending (profile filename : String) : LoopPc → List Event → Prop
  | .logStats memStats, l => l = [.capture memStats]
  | .dump, l => ∃ memStats, l = [.capture memStats, .logStats memStats]
  | .logError err, l => ∃ (memStats : MemoryStats) (rt : Runtime),
      (DumpProfile rt profile filename).1 = some err ∧
      l = [.capture memStats, .logStats memStats,
           .dump profile filename (some err) (DumpProfile rt profile filename).2]
  | _, l => l = []

/-- The tick bodies of a trace are whole ones for the pair `(v.profile,
v.profileFile)`, followed by the one under way; the locals of `main` still hold
that pair; the loop has returned only after a stop notification. -/
def LoopInv (v : Viper) (s : State) : Prop :=
  s.profile = v.profile ∧ s.profileFile = v.profileFile ∧
  (s.loop = .returned → Event.done ∈ s.trace) ∧
  ∃ (ticks : List (List Event)) (pending : List Event),
    loopEvents s.trace = ticks.flatten ++ pending ∧
    (∀ t ∈ ticks, IsTick v.profile v.profileFile t) ∧
    Pending v.profile v.profileFile s.loop pending

/-- The shutdown goroutine has run its statements in the order of the source,
and the ticker is stopped exactly from `ticker.Stop()` on. -/
def CoordInv (s : State) : Prop :=
  coordinatorEvents s.trace = s.coordinator.statementsRun ∧
  (s.tickerStopped = true ↔ (s.coordinator = .sendDone ∨ s.coordinator = .finished))

/-- The timer is stopped, no tick waits in `ticker.C`, and the loop is
between ticks or has returned. -/
def Quiet (s : State) : Prop :=
  s.tickerStopped = true ∧ s.tickerC = false ∧ (s.loop = .select ∨ s.loop = .returned)

/-- The state of the sample run in which a first tick was just received. -/
def tickedState : State :=
  { initState Viper.sample MemStats.zero with loop := .capture }

/-- The state of the sample run in which the shutdown goroutine has stopped
the ticker and offers the stop notification, the loop being between ticks. -/
def stoppedState : State :=
  { initState Viper.sample MemStats.zero with
    tickerStopped := true
    coordinator := .sendDone
    trace := [.logShutdown, .tickerStop] }

/-- The state of the sample run after a reload of the configuration and the
return of the loop on the stop notification. -/
def returnedState : State :=
  { stoppedState with
    viper := Viper.bogus
    loop := .returned
    coordinator := .finished
    trace := [.logShutdown, .tickerStop, .logConfigChange, .done] }

/-- A run in which the timer fires after the signal was received and before
`ticker.Stop()`. -/
def raceSchedule : List Label :=
  [.signalArrives, .coordinator, .timerFires, .selectTick,
   .loopBody Runtime.healthy, .loopBody Runtime.healthy, .loopBody Runtime.healthy,
   .coordinator, .coordinator, .selectDone]

/-! ## Lemmas on `dispatch` -/

/-- The `default` case of the `switch`. -/
theorem dispatch_unknown (rt : Runtime) (profile : String)
    (hheap : profile ≠ "heap") (hgo : profile ≠ "goroutine") (hcpu : profile ≠ "cpu")
    (hthr : profile ≠ "threadcreate") (hblk : profile ≠ "block") :
    dispatch rt profile = (some (.unknownProfileType profile), []) := by
  simp [dispatch, hheap, hgo, hcpu, hthr, hblk]

/-- The `"heap"` case of the `switch`. -/
theorem dispatch_heap (rt : Runtime) :
    dispatch rt "heap" = (rt.writeHeapProfile.map .couldNotWriteHeap, [.gc, .writeHeapProfile]) := by
  unfold dispatch
  cases h : rt.writeHeapProfile <;> simp

/-- The `"cpu"` case of the `switch`. -/
theorem dispatch_cpu (rt : Runtime) :
    dispatch rt "cpu" =
      (rt.startCPUProfile.map .couldNotStartCPU,
       match rt.startCPUProfile with
       | some _ => [.startCPUProfile]
       | none => [.startCPUProfile, .sleep (Second * 10), .stopCPUProfile]) := by
  unfold dispatch
  cases h : rt.startCPUProfile <;> simp

/-- The `"goroutine"`, `"threadcreate"` and `"block"` cases of the `switch`. -/
theorem dispatch_named (rt : Runtime) (profile : String)
    (hk : profile = "goroutine" ∨ profile = "threadcreate" ∨ profile = "block") :
    dispatch rt profile = writeNamedProfile rt profile := by
  rcases hk with h | h | h <;> subst h <;> simp [dispatch]

/-- A named profile that the lookup finds is written once. -/
theorem writeNamedProfile_found (rt : Runtime) (name : String) (h : rt.lookup name = true) :
    writeNamedProfile rt name =
      ((rt.writeTo name).map (.couldNotWrite name), [.lookup name, .writeTo name]) := by
  unfold writeNamedProfile
  cases hw : rt.writeTo name <;> simp [h]

/-- A named profile that the lookup does not find is not written. -/
theorem writeNamedProfile_missing (rt : Runtime) (name : String) (h : rt.lookup name = false) :
    writeNamedProfile rt name = (some (.couldNotFind name), [.lookup name]) := by
  simp [writeNamedProfile, h]

/-- The run of `DumpProfile` when `os.Create` succeeds. -/
theorem DumpProfile_created (rt : Runtime) (profile filename : String)
    (hcreate : rt.create filename = none) :
    DumpProfile rt profile filename =
      ((dispatch rt profile).1, .create filename :: ((dispatch rt profile).2 ++ [.close])) := by
  simp [DumpProfile, hcreate]

/-- Every call made by the `switch` is one of the seven calls of its cases. -/
theorem dispatch_actions (rt : Runtime) (profile : String) (a : Action)
    (ha : a ∈ (dispatch rt profile).2) :
    (a = .gc ∧ profile = "heap") ∨ (a = .writeHeapProfile ∧ profile = "heap") ∨
    (a = .lookup profile ∧ (profile = "goroutine" ∨ profile = "threadcreate" ∨ profile = "block")) ∨
    (a = .writeTo profile ∧ (profile = "goroutine" ∨ profile = "threadcreate" ∨ profile = "block")) ∨
    (a = .startCPUProfile ∧ profile = "cpu") ∨ (a = .sleep (Second * 10) ∧ profile = "cpu") ∨
    (a = .stopCPUProfile ∧ profile = "cpu") := by
  unfold dispatch writeNamedProfile at ha
  split_ifs at ha with h1 h2 h3 h4 h5 h6 h7 h8 <;> (try split at ha) <;> simp_all

/-! ## `DumpProfile` -/

/-- C1: for a profile string that is none of "heap", "goroutine", "cpu",
"threadcreate", "block" (compared exactly, case included) and a path at which
the file can be created, `DumpProfile` returns the unknown-profile-type error
and the only calls it makes are the create/truncate and the close: no write,
no GC, no lookup, no CPU sampling, no sleep. -/
theorem DumpProfile_unknown_kind (rt : Runtime) (profile filename : String)
    (hheap : profile ≠ "heap") (hgo : profile ≠ "goroutine") (hcpu : profile ≠ "cpu")
    (hthr : profile ≠ "threadcreate") (hblk : profile ≠ "block")
    (hcreate : rt.create filename = none) :
    DumpProfile rt profile filename =
      (some (.unknownProfileType profile), [.create filename, .close]) ∧
    ((DumpProfile rt profile filename).1.map DumpError.Error =
      some ("unknown profile type: " ++ profile)) := by
  rw [DumpProfile_created rt profile filename hcreate,
    dispatch_unknown rt profile hheap hgo hcpu hthr hblk]
  simp [DumpError.Error]

theorem DumpProfile_unknown_kind_witness :
    DumpProfile Runtime.healthy "Heap" "profile.out" =
      (some (.unknownProfileType "Heap"), [.create "profile.out", .close]) ∧
    ((DumpProfile Runtime.healthy "Heap" "profile.out").1.map DumpError.Error =
      some ("unknown profile type: " ++ "Heap")) :=
  DumpProfile_unknown_kind Runtime.healthy "Heap" "profile.out"
    (by decide) (by decide) (by decide) (by decide) (by decide) rfl

/-- C2, as stated, fails for the kind "cpu": with the file created, CPU sampling
started and the profile writer unable to write the samples to the file,
`DumpProfile` returns `nil` (success), not an I/O error. -/
theorem DumpProfile_cpu_write_failure_is_success :
    Runtime.diskFull.create "cpu.prof" = none ∧
    Runtime.diskFull.cpuProfileWrite = some "no space left on device" ∧
    DumpProfile Runtime.diskFull "cpu" "cpu.prof" =
      (none, [.create "cpu.prof", .startCPUProfile, .sleep 10000000000,
              .stopCPUProfile, .close]) := by
  decide

/-- C2, amended: for every profile string and path, if the file cannot be
created `DumpProfile` fails with the create error and makes no other call (no
GC, lookup, CPU sampling, sleep, write or close). If the file is created, a
failed write of the heap profile, or of a found goroutine, threadcreate or
block profile, makes it fail with the write error; for "cpu" the result is an
error exactly when sampling cannot be started, whatever happens to the
samples afterwards. -/
theorem DumpProfile_io_errors (rt : Runtime) (profile filename : String) :
    (∀ err, rt.create filename = some err →
      DumpProfile rt profile filename = (some (.couldNotCreate err), [.create filename])) ∧
    (rt.create filename = none →
      (∀ err, profile = "heap" → rt.writeHeapProfile = some err →
        (DumpProfile rt profile filename).1 = some (.couldNotWriteHeap err)) ∧
      (∀ err, profile = "goroutine" ∨ profile = "threadcreate" ∨ profile = "block" →
        rt.lookup profile = true → rt.writeTo profile = some err →
        (DumpProfile rt profile filename).1 = some (.couldNotWrite profile err)) ∧
      (profile = "cpu" →
        (DumpProfile rt profile filename).1 = rt.startCPUProfile.map .couldNotStartCPU)) := by
  refine ⟨fun err h => by simp [DumpProfile, h], fun hcreate => ⟨?_, ?_, ?_⟩⟩
  · intro err hp hw
    subst hp
    rw [DumpProfile_created rt _ filename hcreate, dispatch_heap, hw]
    rfl
  · intro err hk hl hw
    rw [DumpProfile_created rt _ filename hcreate, dispatch_named rt profile hk,
      writeNamedProfile_found rt profile hl, hw]
    rfl
  · intro hp
    subst hp
    rw [DumpProfile_created rt _ filename hcreate, dispatch_cpu]

theorem DumpProfile_io_errors_witness :
    DumpProfile Runtime.noCreate "bogus" "profile.out" =
      (some (.couldNotCreate "permission denied"), [.create "profile.out"]) ∧
    (DumpProfile Runtime.diskFull "heap" "profile.out").1 =
      some (.couldNotWriteHeap "no space left on device") ∧
    (DumpProfile Runtime.diskFull "block" "profile.out").1 =
      some (.couldNotWrite "block" "no space left on device") ∧
    (DumpProfile Runtime.cpuBusy "cpu" "profile.out").1 =
      some (.couldNotStartCPU "cpu profiling already in use") :=
  ⟨(DumpProfile_io_errors Runtime.noCreate "bogus" "profile.out").1 "permission denied" rfl,
   ((DumpProfile_io_errors Runtime.diskFull "heap" "profile.out").2 rfl).1
      "no space left on device" rfl rfl,
   ((DumpProfile_io_errors Runtime.diskFull "block" "profile.out").2 rfl).2.1
      "no space left on device" (Or.inr (Or.inr rfl)) rfl rfl,
   ((DumpProfile_io_errors Runtime.cpuBusy "cpu" "profile.out").2 rfl).2.2 rfl⟩

/-- C3: for a kind among goroutine, threadcreate, block and a path at which
the file can be created, `DumpProfile` looks up the profile registered under
that very name; if there is none it fails with the profile-not-found error and
writes nothing; otherwise it writes that profile to the file exactly once and
succeeds exactly when that write succeeds. -/
theorem DumpProfile_named_profile (rt : Runtime) (profile filename : String)
    (hk : profile = "goroutine" ∨ profile = "threadcreate" ∨ profile = "block")
    (hcreate : rt.create filename = none) :
    (rt.lookup profile = false →
      DumpProfile rt profile filename =
        (some (.couldNotFind profile), [.create filename, .lookup profile, .close])) ∧
    (rt.lookup profile = true →
      (DumpProfile rt profile filename).2 =
        [.create filename, .lookup profile, .writeTo profile, .close] ∧
      (DumpProfile rt profile filename).1 = (rt.writeTo profile).map (.couldNotWrite profile) ∧
      ((DumpProfile rt profile filename).1 = none ↔ rt.writeTo profile = none)) := by
  rw [DumpProfile_created rt profile filename hcreate, dispatch_named rt profile hk]
  constructor
  · intro hl
    rw [writeNamedProfile_missing rt profile hl]
    rfl
  · intro hl
    rw [writeNamedProfile_found rt profile hl]
    refine ⟨rfl, rfl, ?_⟩
    cases rt.writeTo profile <;> simp

theorem DumpProfile_named_profile_witness :
    DumpProfile Runtime.noProfiles "threadcreate" "profile.out" =
      (some (.couldNotFind "threadcreate"),
       [.create "profile.out", .lookup "threadcreate", .close]) ∧
    ((DumpProfile Runtime.diskFull "goroutine" "profile.out").2 =
      [.create "profile.out", .lookup "goroutine", .writeTo "goroutine", .close] ∧
     (DumpProfile Runtime.diskFull "goroutine" "profile.out").1 =
      (Runtime.diskFull.writeTo "goroutine").map (.couldNotWrite "goroutine") ∧
     ((DumpProfile Runtime.diskFull "goroutine" "profile.out").1 = none ↔
      Runtime.diskFull.writeTo "goroutine" = none)) :=
  ⟨(DumpProfile_named_profile Runtime.noProfiles "threadcreate" "profile.out"
      (Or.inr (Or.inl rfl)) rfl).1 rfl,
   (DumpProfile_named_profile Runtime.diskFull "goroutine" "profile.out"
      (Or.inl rfl) rfl).2 rfl⟩

/-- Every call of a `DumpProfile` run is the create, the close, or a call of
the `switch`. -/
theorem DumpProfile_actions (rt : Runtime) (profile filename : String) (a : Action)
    (ha : a ∈ (DumpProfile rt profile filename).2) :
    a = .create filename ∨ a = .close ∨ a ∈ (dispatch rt profile).2 := by
  unfold DumpProfile at ha
  split at ha
  · simp at ha
    exact Or.inl ha
  · simp at ha
    rcases ha with h | h | h
    · exact Or.inl h
    · exact Or.inr (Or.inr h)
    · exact Or.inr (Or.inl h)

/-- C4: for a path at which the file can be created and with CPU sampling
able to start, `DumpProfile("cpu", path)` starts CPU sampling, sleeps 10
seconds, stops CPU sampling, in that order, and returns success. The window
is 10 seconds in whatever state the loop makes the call (the configured
interval and duration play no part), and a sleep happens for no other kind. -/
theorem DumpProfile_cpu_window (rt : Runtime) (filename : String)
    (hcreate : rt.create filename = none) (hstart : rt.startCPUProfile = none) :
    DumpProfile rt "cpu" filename =
      (none, [.create filename, .startCPUProfile, .sleep (10 * Second),
              .stopCPUProfile, .close]) ∧
    10 * Second = 10000000000 ∧
    (∀ s : State, s.loop = .dump → s.profile = "cpu" → s.profileFile = filename →
      (step (.loopBody rt) s).map (fun s' => s'.trace) =
        some (s.trace ++ [.dump "cpu" filename none
          [.create filename, .startCPUProfile, .sleep 10000000000,
           .stopCPUProfile, .close]])) ∧
    (∀ (rt' : Runtime) (profile filename' : String) (d : Nat),
      .sleep d ∈ (DumpProfile rt' profile filename').2 →
        profile = "cpu" ∧ d = 10 * Second) := by
  have h : DumpProfile rt "cpu" filename =
      (none, [.create filename, .startCPUProfile, .sleep (10 * Second),
              .stopCPUProfile, .close]) := by
    rw [DumpProfile_created rt _ filename hcreate, dispatch_cpu, hstart]
    simp [Nat.mul_comm]
  refine ⟨h, by decide, ?_, ?_⟩
  · intro s hl hp hf
    simp [step, hl, hp, hf, h, Second]
  · intro rt' profile filename' d hd
    rcases DumpProfile_actions rt' profile filename' _ hd with h1 | h1 | h1
    · cases h1
    · cases h1
    · have := dispatch_actions rt' profile _ h1
      simp at this
      exact ⟨this.2, by rw [this.1, Nat.mul_comm]⟩

theorem DumpProfile_cpu_window_witness :
    DumpProfile Runtime.diskFull "cpu" "cpu.prof" =
      (none, [.create "cpu.prof", .startCPUProfile, .sleep (10 * Second),
              .stopCPUProfile, .close]) :=
  (DumpProfile_cpu_window Runtime.diskFull "cpu.prof" rfl rfl).1

/-- C5: for a path at which the file can be created, `DumpProfile("heap",
path)` forces one garbage collection, and does so before it writes the heap
profile to the file; it succeeds exactly when that write succeeds; and no
other kind forces a garbage collection. -/
theorem DumpProfile_heap_gc (rt : Runtime) (filename : String)
    (hcreate : rt.create filename = none) :
    (DumpProfile rt "heap" filename).2 =
      [.create filename, .gc, .writeHeapProfile, .close] ∧
    (DumpProfile rt "heap" filename).1 = rt.writeHeapProfile.map .couldNotWriteHeap ∧
    ((DumpProfile rt "heap" filename).1 = none ↔ rt.writeHeapProfile = none) ∧
    (∀ (rt' : Runtime) (profile filename' : String),
      .gc ∈ (DumpProfile rt' profile filename').2 → profile = "heap") := by
  rw [DumpProfile_created rt _ filename hcreate, dispatch_heap]
  refine ⟨rfl, rfl, ?_, ?_⟩
  · cases rt.writeHeapProfile <;> simp
  · intro rt' profile filename' hd
    rcases DumpProfile_actions rt' profile filename' _ hd with h1 | h1 | h1
    · cases h1
    · cases h1
    · have := dispatch_actions rt' profile _ h1
      simp at this
      exact this

theorem DumpProfile_heap_gc_witness :
    (DumpProfile Runtime.diskFull "heap" "heap.prof").2 =
      [.create "heap.prof", .gc, .writeHeapProfile, .close] ∧
    (DumpProfile Runtime.diskFull "heap" "heap.prof").1 =
      some (.couldNotWriteHeap "no space left on device") :=
  ⟨(DumpProfile_heap_gc Runtime.diskFull "heap.prof" rfl).1,
   (DumpProfile_heap_gc Runtime.diskFull "heap.prof" rfl).2.1⟩

/-- C6: for every profile string, path and outcome of the underlying calls, if
`DumpProfile` created the file then the file is closed exactly once, and the
close is the last call made before `DumpProfile` returns. -/
theorem DumpProfile_closes_file (rt : Runtime) (profile filename : String)
    (hcreate : rt.create filename = none) :
    (∃ mid, (DumpProfile rt profile filename).2 = .create filename :: (mid ++ [.close]) ∧
      Action.close ∉ mid) ∧
    (DumpProfile rt profile filename).2.count .close = 1 ∧
    (DumpProfile rt profile filename).2.getLast? = some .close := by
  have hmid : Action.close ∉ (dispatch rt profile).2 := by
    intro h
    have := dispatch_actions rt profile _ h
    simp at this
  rw [DumpProfile_created rt profile filename hcreate]
  refine ⟨⟨_, rfl, hmid⟩, ?_, ?_⟩
  · simp [List.count_cons, List.count_append, List.count_eq_zero_of_not_mem hmid]
  · exact List.getLast?_concat (Action.create filename :: (dispatch rt profile).2)

theorem DumpProfile_closes_file_witness :
    (DumpProfile Runtime.cpuBusy "cpu" "cpu.prof").2.count .close = 1 ∧
    (DumpProfile Runtime.cpuBusy "cpu" "cpu.prof").2.getLast? = some .close :=
  (DumpProfile_closes_file Runtime.cpuBusy "cpu" "cpu.prof" rfl).2

/-! ## `validateConfig` -/

/-- C9, as stated, fails: a configuration whose profile is "bogus", none of
the five kinds, passes `validateConfig`, and `main` goes on to start the
goroutines with it. -/
theorem validateConfig_accepts_bogus_profile :
    Viper.bogus.profile = "bogus" ∧
    validateConfig Viper.bogus = none ∧
    main none Viper.bogus none MemStats.zero = .ok (initState Viper.bogus MemStats.zero) :=
  ⟨rfl, by decide, rfl⟩

/-- C9, amended: `validateConfig` lets startup proceed exactly for a
configuration in which interval and duration are both > 0 and profile,
profileFile, logFile, username and password are all non-empty (the profile is
only required to be non-empty); every other configuration is rejected with a
fatal error, which ends `main` before any goroutine starts. -/
theorem validateConfig_accepts_iff (v : Viper) :
    (validateConfig v = none ↔
      (0 < v.interval ∧ 0 < v.duration ∧ v.profile ≠ "" ∧ v.profileFile ≠ "" ∧
        v.logFile ≠ "" ∧ v.username ≠ "" ∧ v.password ≠ "")) ∧
    (∀ msg, validateConfig v = some msg →
      ∀ openFile mem, main none v openFile mem = .error msg) ∧
    (∀ readInConfig openFile mem s, main readInConfig v openFile mem = .ok s →
      validateConfig v = none) := by
  refine ⟨?_, ?_, ?_⟩
  · unfold validateConfig
    constructor
    · intro h
      split_ifs at h with h1 h2 h3 h4 h5 h6
      push_neg at h6
      exact ⟨not_le.mp h1, not_le.mp h2, h3, h4, h5, h6.1, h6.2⟩
    · rintro ⟨h1, h2, h3, h4, h5, h6, h7⟩
      simp [not_le.mpr h1, not_le.mpr h2, h3, h4, h5, h6, h7]
  · intro msg h openFile mem
    simp [main, h]
  · intro readInConfig openFile mem s h
    unfold main at h
    cases readInConfig with
    | some err => simp at h
    | none =>
      cases hv : validateConfig v with
      | none => rfl
      | some msg => simp [hv] at h

theorem validateConfig_accepts_iff_witness :
    main none Viper.noPassword none MemStats.zero =
      .error "Username or password not specified" :=
  (validateConfig_accepts_iff Viper.noPassword).2.1
    "Username or password not specified" (by decide) none MemStats.zero

/-! ## `basicAuth` -/

/-- What `basicAuth` answers when it turns a request down. -/
theorem basicAuth_rejects (v : Viper) (next : HandlerFunc) (r : Request) (w : ResponseWriter)
    (h : ¬ (r.ok = true ∧ r.user = v.username ∧ r.pass = v.password)) :
    basicAuth v next r w =
      httpError (w.Set "WWW-Authenticate" "Basic realm=\x22restricted\x22")
        "Unauthorized" StatusUnauthorized := by
  unfold basicAuth
  have : (!r.ok) = true ∨ r.user ≠ v.username ∨ r.pass ≠ v.password := by
    by_cases h1 : r.ok = true
    · by_cases h2 : r.user = v.username
      · exact Or.inr (Or.inr (fun h3 => h ⟨h1, h2, h3⟩))
      · exact Or.inr (Or.inl h2)
    · simp at h1
      simp [h1]
  simp only [this, if_true]

/-- C10: for every request to a handler wrapped by `basicAuth`: when the
request carries Basic credentials whose user and password both equal the
configured ones, the response is the one of the wrapped handler; in every other
case (no credentials, wrong user or wrong password) the wrapped handler plays
no part in the response, whose status is 401 and which carries a
WWW-Authenticate challenge header. -/
theorem basicAuth_gate (v : Viper) (next : HandlerFunc) (r : Request) (w : ResponseWriter) :
    ((r.ok = true ∧ r.user = v.username ∧ r.pass = v.password) →
      basicAuth v next r w = next r w) ∧
    (¬ (r.ok = true ∧ r.user = v.username ∧ r.pass = v.password) →
      (∀ other : HandlerFunc, basicAuth v other r w = basicAuth v next r w) ∧
      (w.wroteHeader = false →
        (basicAuth v next r w).wroteHeader = true ∧
        (basicAuth v next r w).status = 401 ∧
        ("WWW-Authenticate", "Basic realm=\x22restricted\x22") ∈
          (basicAuth v next r w).sentHeader)) := by
  constructor
  · rintro ⟨h1, h2, h3⟩
    simp [basicAuth, h1, h2, h3]
  · intro h
    refine ⟨fun other => ?_, fun hw => ?_⟩
    · rw [basicAuth_rejects v other r w h, basicAuth_rejects v next r w h]
    · rw [basicAuth_rejects v next r w h]
      simp [httpError, ResponseWriter.Write, ResponseWriter.WriteHeader, ResponseWriter.Set,
        hw, StatusUnauthorized]

theorem basicAuth_gate_witness :
    basicAuth Viper.sample okHandler Request.admin ResponseWriter.fresh =
      okHandler Request.admin ResponseWriter.fresh ∧
    (basicAuth Viper.sample okHandler Request.anonymous ResponseWriter.fresh).status = 401 :=
  ⟨(basicAuth_gate Viper.sample okHandler Request.admin ResponseWriter.fresh).1
      ⟨rfl, rfl, rfl⟩,
   (((basicAuth_gate Viper.sample okHandler Request.anonymous ResponseWriter.fresh).2
      (by decide)).2 rfl).2.1⟩

/-! ## The goroutines -/

/-- A property kept by every step is kept by every run. -/
theorem exec_invariant (P : State → Prop)
    (hstep : ∀ l s s', P s → step l s = some s' → P s') :
    ∀ (ls : List Label) (s s' : State), P s → exec ls s = some s' → P s' := by
  intro ls
  induction ls with
  | nil =>
    intro s s' hs h
    simp [exec] at h
    exact h ▸ hs
  | cons l ls ih =>
    intro s s' hs h
    simp only [exec] at h
    cases hl : step l s with
    | none => simp [hl] at h
    | some s1 =>
      rw [hl] at h
      exact ih s1 s' (hstep l s s1 hs hl) h

/-- Once the loop has returned it stays so. -/
theorem step_returned (l : Label) (s s' : State) (hs : s.loop = .returned)
    (h : step l s = some s') : s'.loop = .returned := by
  unfold step at h
  split at h <;> (try split at h) <;> (try split at h) <;> simp_all
  all_goals (obtain ⟨_, rfl⟩ := h; simp_all)

/-- A step from a quiet state leads to a quiet state and adds no event of a
tick body. -/
theorem step_quiet (l : Label) (s s' : State) (hs : Quiet s) (h : step l s = some s') :
    Quiet s' ∧
      ∃ extra, s'.trace = s.trace ++ extra ∧ ∀ e ∈ extra, Event.inTickBody e = false := by
  obtain ⟨h1, h2, h3⟩ := hs
  unfold step at h
  split at h <;> (try split at h) <;> (try split at h) <;> simp_all [Quiet]
  all_goals subst h
  all_goals refine ⟨by simp_all, ?_⟩
  all_goals first
    | exact ⟨[_], rfl, by simp [Event.inTickBody]⟩
    | exact ⟨[], (List.append_nil _).symm, by simp⟩

/-- A run from a quiet state ends in a quiet state and adds no event of a tick
body. -/
theorem exec_quiet (ls : List Label) (s s' : State) (hs : Quiet s)
    (h : exec ls s = some s') :
    Quiet s' ∧
      ∃ extra, s'.trace = s.trace ++ extra ∧ ∀ e ∈ extra, Event.inTickBody e = false := by
  refine exec_invariant
    (fun x => Quiet x ∧
      ∃ extra, x.trace = s.trace ++ extra ∧ ∀ e ∈ extra, Event.inTickBody e = false)
    ?_ ls s s' ⟨hs, [], (List.append_nil _).symm, by simp⟩ h
  rintro l x x' ⟨hq, extra, hx, hextra⟩ hstep
  obtain ⟨hq', more, hx', hmore⟩ := step_quiet l x x' hq hstep
  refine ⟨hq', extra ++ more, by rw [hx', hx, List.append_assoc], ?_⟩
  intro e he
  rcases List.mem_append.mp he with he | he
  · exact hextra e he
  · exact hmore e he

/-- Every step keeps `CoordInv`. -/
theorem step_coordInv (l : Label) (s s' : State) (hs : CoordInv s) (h : step l s = some s') :
    CoordInv s' := by
  obtain ⟨h1, h2⟩ := hs
  unfold step at h
  split at h <;> (try split at h) <;> (try split at h) <;> simp at h
  all_goals subst h
  all_goals simp_all [CoordInv, coordinatorEvents, CoordPc.statementsRun, Event.ofCoordinator]

/-- The tick-body events of a trace extended by one event. -/
theorem loopEvents_append (t : List Event) (e : Event) :
    loopEvents (t ++ [e]) = loopEvents t ++ (if e.inTickBody then [e] else []) := by
  simp only [loopEvents, List.filter_append]
  congr 1
  cases h : e.inTickBody <;> simp [List.filter, h]

/-- Every step keeps `LoopInv`. -/
theorem step_loopInv (v : Viper) (l : Label) (s s' : State) (hs : LoopInv v s)
    (h : step l s = some s') : LoopInv v s' := by
  obtain ⟨hp, hf, hr, ticks, pending, hev, hticks, hpend⟩ := hs
  cases l with
  | timerFires =>
    simp [step] at h
    obtain ⟨_, rfl⟩ := h
    exact ⟨hp, hf, hr, ticks, pending, hev, hticks, hpend⟩
  | signalArrives =>
    simp [step] at h
    subst h
    exact ⟨hp, hf, hr, ticks, pending, hev, hticks, hpend⟩
  | configChanges c =>
    simp [step] at h
    subst h
    refine ⟨hp, hf, fun hl => List.mem_append_left _ (hr hl), ticks, pending, ?_, hticks, hpend⟩
    simpa [loopEvents_append, Event.inTickBody] using hev
  | memChanges m =>
    simp [step] at h
    subst h
    exact ⟨hp, hf, hr, ticks, pending, hev, hticks, hpend⟩
  | coordinator =>
    simp only [step] at h
    split at h <;> (try split at h) <;> simp at h <;> subst h
    · exact ⟨hp, hf, hr, ticks, pending, hev, hticks, hpend⟩
    · refine ⟨hp, hf, fun hl => List.mem_append_left _ (hr hl), ticks, pending, ?_, hticks, hpend⟩
      simpa [loopEvents_append, Event.inTickBody] using hev
    · refine ⟨hp, hf, fun hl => List.mem_append_left _ (hr hl), ticks, pending, ?_, hticks, hpend⟩
      simpa [loopEvents_append, Event.inTickBody] using hev
  | selectTick =>
    simp [step] at h
    obtain ⟨⟨hl, _⟩, rfl⟩ := h
    rw [hl] at hpend
    exact ⟨hp, hf, by simp, ticks, pending, hev, hticks, hpend⟩
  | selectDone =>
    simp [step] at h
    obtain ⟨⟨hl, _⟩, rfl⟩ := h
    rw [hl] at hpend
    refine ⟨hp, hf, by simp, ticks, pending, ?_, hticks, hpend⟩
    simpa [loopEvents_append, Event.inTickBody] using hev
  | loopBody rt =>
    simp only [step] at h
    split at h <;> simp at h <;> subst h
    · rename_i hl
      rw [hl] at hpend
      simp only [Pending] at hpend
      refine ⟨hp, hf, by simp, ticks, [.capture (CaptureMemoryStats s.mem)], ?_, hticks, rfl⟩
      simp [loopEvents_append, Event.inTickBody, hev, hpend]
    · rename_i memStats hl
      rw [hl] at hpend
      simp only [Pending] at hpend
      refine ⟨hp, hf, by simp, ticks, [.capture memStats, .logStats memStats], ?_, hticks,
        ⟨memStats, rfl⟩⟩
      simp [loopEvents_append, Event.inTickBody, hev, hpend]
    · rename_i hl
      rw [hl] at hpend
      obtain ⟨memStats, hpend⟩ := hpend
      refine ⟨hp, hf, ?_, ?_⟩
      · dsimp only
        cases (DumpProfile rt s.profile s.profileFile).1 <;> simp
      · dsimp only
        rw [hp, hf]
        cases hd : (DumpProfile rt v.profile v.profileFile).1 with
        | none =>
          refine ⟨ticks ++ [tickBody memStats v.profile v.profileFile none
            (DumpProfile rt v.profile v.profileFile).2], [], ?_, ?_, rfl⟩
          · simp [loopEvents_append, Event.inTickBody, hev, hpend, tickBody]
          · intro t ht
            rcases List.mem_append.mp ht with ht | ht
            · exact hticks t ht
            · simp only [List.mem_singleton] at ht
              exact ⟨memStats, rt, by rw [ht, hd]⟩
        | some err =>
          refine ⟨ticks, [.capture memStats, .logStats memStats,
            .dump v.profile v.profileFile (some err) (DumpProfile rt v.profile v.profileFile).2],
            ?_, hticks, ⟨memStats, rt, hd, rfl⟩⟩
          simp [loopEvents_append, Event.inTickBody, hev, hpend]
    · rename_i err hl
      rw [hl] at hpend
      obtain ⟨memStats, rt', hd, hpend⟩ := hpend
      refine ⟨hp, hf, by simp, ticks ++ [tickBody memStats v.profile v.profileFile (some err)
        (DumpProfile rt' v.profile v.profileFile).2], [], ?_, ?_, rfl⟩
      · simp [loopEvents_append, Event.inTickBody, hev, hpend, tickBody, hp]
      · intro t ht
        rcases List.mem_append.mp ht with ht | ht
        · exact hticks t ht
        · simp only [List.mem_singleton] at ht
          exact ⟨memStats, rt', by rw [ht, hd]⟩

/-- The goroutines start in a state satisfying `LoopInv`. -/
theorem initState_loopInv (v : Viper) (mem : MemStats) : LoopInv v (initState v mem) :=
  ⟨rfl, rfl, by simp [initState], [], [], rfl, by simp, rfl⟩

/-- The goroutines start in a state satisfying `CoordInv`. -/
theorem initState_coordInv (v : Viper) (mem : MemStats) : CoordInv (initState v mem) := by
  simp [CoordInv, initState, coordinatorEvents, CoordPc.statementsRun]


/-- The three statements of a tick body, run from a tick just received. -/
theorem exec_tick (s : State) (rt : Runtime) (hl : s.loop = .capture) :
    exec [.loopBody rt, .loopBody rt, .loopBody rt] s =
      some { s with
        loop := (match (DumpProfile rt s.profile s.profileFile).1 with
                 | some err => .logError err
                 | none => .select),
        trace := s.trace ++
          [.capture (CaptureMemoryStats s.mem), .logStats (CaptureMemoryStats s.mem),
           .dump s.profile s.profileFile (DumpProfile rt s.profile s.profileFile).1
             (DumpProfile rt s.profile s.profileFile).2] } := by
  simp [exec, step, hl]

/-- C7: in every run of the goroutines started by `main` on the configuration
`v`, the loop still holds the pair `(v.profile, v.profileFile)` read at
startup; the tick bodies in the trace are, one after the other, a snapshot
capture, the log of that snapshot, one `DumpProfile` call on that pair and,
when the dump failed, the log of its error, the last one possibly under way;
from a tick just received the body runs to its end whatever `DumpProfile`
returns, and the loop is then back in `select`, still running; and the loop
returns only on a stop notification. -/
theorem tick_body_of_every_tick (v : Viper) (mem : MemStats) (schedule : List Label)
    (s : State) (hrun : exec schedule (initState v mem) = some s) :
    (s.profile = v.profile ∧ s.profileFile = v.profileFile) ∧
    (∃ (ticks : List (List Event)) (pending : List Event),
      loopEvents s.trace = ticks.flatten ++ pending ∧
      (∀ t ∈ ticks, IsTick v.profile v.profileFile t) ∧
      Pending v.profile v.profileFile s.loop pending) ∧
    (s.loop = .capture → ∀ rt : Runtime,
      ∃ s3, exec [.loopBody rt, .loopBody rt, .loopBody rt] s = some s3 ∧
        s3.trace = s.trace ++
          [.capture (CaptureMemoryStats s.mem), .logStats (CaptureMemoryStats s.mem),
           .dump v.profile v.profileFile (DumpProfile rt v.profile v.profileFile).1
             (DumpProfile rt v.profile v.profileFile).2] ∧
        ((DumpProfile rt v.profile v.profileFile).1 = none → s3.loop = .select) ∧
        (∀ err, (DumpProfile rt v.profile v.profileFile).1 = some err →
          s3.loop = .logError err ∧
          ∃ s4, exec [.loopBody rt] s3 = some s4 ∧
            s4.trace = s3.trace ++ [.logError v.profile err] ∧ s4.loop = .select)) ∧
    (s.loop = .returned → Event.done ∈ s.trace) := by
  obtain ⟨hp, hf, hr, hticks⟩ :=
    exec_invariant (LoopInv v) (step_loopInv v) schedule _ s (initState_loopInv v mem) hrun
  refine ⟨⟨hp, hf⟩, hticks, ?_, hr⟩
  intro hl rt
  refine ⟨_, exec_tick s rt hl, by simp [hp, hf], ?_, ?_⟩
  · intro hd
    simp [hp, hf, hd]
  · intro err hd
    simp [hp, hf, hd, exec, step]

theorem tick_body_of_every_tick_witness :
    ∃ s3, exec [.loopBody Runtime.noProfiles, .loopBody Runtime.noProfiles,
        .loopBody Runtime.noProfiles] tickedState = some s3 ∧
      s3.trace = tickedState.trace ++
        [.capture (CaptureMemoryStats tickedState.mem),
         .logStats (CaptureMemoryStats tickedState.mem),
         .dump Viper.sample.profile Viper.sample.profileFile
           (DumpProfile Runtime.noProfiles Viper.sample.profile Viper.sample.profileFile).1
           (DumpProfile Runtime.noProfiles Viper.sample.profile Viper.sample.profileFile).2] ∧
      ((DumpProfile Runtime.noProfiles Viper.sample.profile Viper.sample.profileFile).1 = none →
        s3.loop = .select) ∧
      (∀ err,
        (DumpProfile Runtime.noProfiles Viper.sample.profile Viper.sample.profileFile).1 =
          some err →
        s3.loop = .logError err ∧
        ∃ s4, exec [.loopBody Runtime.noProfiles] s3 = some s4 ∧
          s4.trace = s3.trace ++ [.logError Viper.sample.profile err] ∧ s4.loop = .select) :=
  (tick_body_of_every_tick Viper.sample MemStats.zero [.timerFires, .selectTick] tickedState
    rfl).2.2.1 rfl Runtime.noProfiles

/-- C8, as stated, fails: in the run `raceSchedule` the signal arrives and is
received while the loop is between ticks with no tick waiting, the timer fires
before the shutdown goroutine reaches `ticker.Stop()`, and a whole tick body
(snapshot, log, dump) runs after the signal. -/
theorem tick_body_after_signal :
    (exec (raceSchedule.take 2) (initState Viper.sample MemStats.zero)).map
        (fun s => (s.loop, s.tickerC, s.coordinator, s.trace)) =
      some (.select, false, .logShutdown, []) ∧
    (exec raceSchedule (initState Viper.sample MemStats.zero)).map
        (fun s => (s.loop, s.trace)) =
      some (.returned,
        [.capture (CaptureMemoryStats MemStats.zero),
         .logStats (CaptureMemoryStats MemStats.zero),
         .dump "goroutine" "profile.out" none
           [.create "profile.out", .lookup "goroutine", .writeTo "goroutine", .close],
         .logShutdown, .tickerStop, .done]) := by
  decide

/-- C8, amended: in every run of the goroutines started by `main`, the
shutdown goroutine logs, then stops the timer, then hands over one stop
notification, in that order and once each, and the timer is stopped exactly
from `ticker.Stop()` on. Once the timer is stopped with no tick waiting in
the ticker channel and the loop between ticks, no statement of a tick body
ever runs again and the loop can only stay between ticks or return; with the
notification on offer the loop does return on it; a signal that arrived with
the loop between ticks leads, when the timer does not fire in between, to the
three statements of the shutdown goroutine and the return of the loop; and a
loop that returned stays so. -/
theorem no_tick_after_stop (v : Viper) (mem : MemStats) (schedule : List Label)
    (s : State) (hrun : exec schedule (initState v mem) = some s) :
    coordinatorEvents s.trace = s.coordinator.statementsRun ∧
    (s.tickerStopped = true ↔ (s.coordinator = .sendDone ∨ s.coordinator = .finished)) ∧
    (s.tickerStopped = true → s.tickerC = false → s.loop = .select →
      ∀ (later : List Label) (s' : State), exec later s = some s' →
        (∃ extra, s'.trace = s.trace ++ extra ∧ ∀ e ∈ extra, Event.inTickBody e = false) ∧
        (s'.loop = .select ∨ s'.loop = .returned)) ∧
    (s.coordinator = .sendDone → s.loop = .select →
      ∃ s', exec [.selectDone] s = some s' ∧ s'.loop = .returned ∧
        s'.coordinator = .finished ∧ s'.trace = s.trace ++ [.done]) ∧
    (s.sigs = true → s.coordinator = .waitSignal → s.loop = .select →
      ∃ s', exec [.coordinator, .coordinator, .coordinator, .selectDone] s = some s' ∧
        s'.loop = .returned ∧ s'.trace = s.trace ++ [.logShutdown, .tickerStop, .done]) ∧
    (s.loop = .returned →
      ∀ (later : List Label) (s' : State), exec later s = some s' → s'.loop = .returned) := by
  obtain ⟨hc1, hc2⟩ :=
    exec_invariant CoordInv step_coordInv schedule _ s (initState_coordInv v mem) hrun
  refine ⟨hc1, hc2, ?_, ?_, ?_, ?_⟩
  · intro h1 h2 h3 later s' hlater
    obtain ⟨hq, hextra⟩ := exec_quiet later s s' ⟨h1, h2, Or.inl h3⟩ hlater
    exact ⟨hextra, hq.2.2⟩
  · intro h1 h2
    refine ⟨{ s with loop := .returned, coordinator := .finished,
                     trace := s.trace ++ [.done] }, ?_, rfl, rfl, rfl⟩
    simp [exec, step, h1, h2]
  · intro h1 h2 h3
    refine ⟨{ s with sigs := false, tickerStopped := true, loop := .returned,
                     coordinator := .finished,
                     trace := s.trace ++ [.logShutdown, .tickerStop, .done] }, ?_, rfl, rfl⟩
    simp [exec, step, h1, h2, h3]
  · intro h1 later s' hlater
    exact exec_invariant (fun x => x.loop = .returned) step_returned later s s' h1 hlater

theorem no_tick_after_stop_witness :
    ((∃ extra, returnedState.trace = stoppedState.trace ++ extra ∧
        ∀ e ∈ extra, Event.inTickBody e = false) ∧
      (returnedState.loop = .select ∨ returnedState.loop = .returned)) ∧
    (∃ s', exec [.selectDone] stoppedState = some s' ∧ s'.loop = .returned ∧
      s'.coordinator = .finished ∧ s'.trace = stoppedState.trace ++ [.done]) :=
  ⟨(no_tick_after_stop Viper.sample MemStats.zero
      [.signalArrives, .coordinator, .coordinator, .coordinator] stoppedState rfl).2.2.1
      rfl rfl rfl [.configChanges Viper.bogus, .selectDone] returnedState rfl,
   (no_tick_after_stop Viper.sample MemStats.zero
      [.signalArrives, .coordinator, .coordinator, .coordinator] stoppedState rfl).2.2.2.1
      rfl rfl⟩

end MemDump
